import Mathlib

/-!
Shallow embedding of the peer/channel control plane of the lightning node
(source file `src/unnamed/part_000`, a C translation unit containing the
peer registry, close coordinator, `drop_to_chain`, the `peer_connected`
hook callback, the funding-depth watcher callback and the JSON-RPC
adapters `close`, `disconnect`, `setchannelfee`).

Pure data is embedded as Lean structures; the C functions' side effects
(wallet writes, subdaemon messages, log lines, command completions) are
made explicit as fields of result records.  Pointer identity of channels
and commands is embedded as a numeric `id` field; `tal` arena lifetimes
are irrelevant to the properties proved here and are not modelled.
-/

/-- The channel lifecycle states, exactly the eight cases the source
switches over in `peer_connected_hook_cb` and compares in `json_close`
and `json_setchannelfee`. -/
inductive ChannelState where
  | CHANNELD_AWAITING_LOCKIN
  | CHANNELD_NORMAL
  | CHANNELD_SHUTTING_DOWN
  | CLOSINGD_SIGEXCHANGE
  | CLOSINGD_COMPLETE
  | AWAITING_UNILATERAL
  | FUNDING_SPEND_SEEN
  | ONCHAIN
deriving DecidableEq, Repr

/-- Modelled from the spec: `channel_state_name` lives in the channel
record module which is not under `src/`; the spec (scenario S5 and the
state table of section 4.4) fixes the names as the C enumerator names. -/
def channel_state_name : ChannelState → String
  | .CHANNELD_AWAITING_LOCKIN => "CHANNELD_AWAITING_LOCKIN"
  | .CHANNELD_NORMAL => "CHANNELD_NORMAL"
  | .CHANNELD_SHUTTING_DOWN => "CHANNELD_SHUTTING_DOWN"
  | .CLOSINGD_SIGEXCHANGE => "CLOSINGD_SIGEXCHANGE"
  | .CLOSINGD_COMPLETE => "CLOSINGD_COMPLETE"
  | .AWAITING_UNILATERAL => "AWAITING_UNILATERAL"
  | .FUNDING_SPEND_SEEN => "FUNDING_SPEND_SEEN"
  | .ONCHAIN => "ONCHAIN"

/-- A bitcoin transaction: an abstract body (identifying its non-witness
serialization) plus an optional input witness.  `drop_to_chain` and
`sign_last_tx` only ever touch the witness of input 0, so one witness
slot suffices; a 2-of-2 witness is the pair of the counterparty
signature and the signer-produced signature. -/
structure BitcoinTx where
  body : Nat
  witness : Option (Nat × Nat)
deriving DecidableEq, Repr

/-- The txid commits to the non-witness serialization only (segwit), so
it is a function of the body alone.  This is why `bitcoin_txid` computed
before or after `remove_sig` agree in the source. -/
def bitcoin_txid (tx : BitcoinTx) : Nat := tx.body

/-- Modelled from the spec: `derive_channel_id` (common library, not
under `src/`) computes SHA256(funding_txid || u16_be(funding_outnum));
embedded as the injective pairing of the two arguments. -/
def derive_channel_id (funding_txid funding_outnum : Nat) : Nat × Nat :=
  (funding_txid, funding_outnum)

/-- The channel record fields the functions under proof read or write.
`id` stands for pointer identity, `owner` for the subdaemon currently
driving the channel (`None` = no worker attached), `error` for the
latched error-to-send-on-reconnect octet string. -/
structure Channel where
  id : Nat
  state : ChannelState
  funding_txid : Nat
  funding_outnum : Nat
  funding_sats : Nat
  minimum_depth : Nat
  dbid : Nat
  scid : Option (Nat × Nat × Nat)
  last_tx : BitcoinTx
  last_tx_type : Nat
  last_sig : Nat
  future_per_commitment_point : Bool
  error : Option (List Nat)
  owner : Option String
  feerate_base : Nat
  feerate_ppm : Nat
deriving DecidableEq, Repr

/-- `struct close_command`: a registered user close request, kept on the
global `ld->close_commands` list.  `channel` is the pointer identity of
the channel being closed. -/
structure CloseCommand where
  cmdId : Nat
  channel : Nat
  force : Bool
deriving DecidableEq, Repr

/-- `sign_last_tx`: asserts the stored commitment has no witness yet,
asks the hardware signer for a signature over `last_tx`, and attaches
the assembled 2-of-2 witness.  The signer is an external oracle, so its
signature is a parameter.  The failed assertion is embedded as `none`
(the process aborts and the function does not return). -/
def sign_last_tx (hsmSig : Nat) (ch : Channel) : Option Channel :=
  match ch.last_tx.witness with
  | some _ => none
  | none =>
      some { ch with last_tx := { ch.last_tx with
                                  witness := some (ch.last_sig, hsmSig) } }

/-- `remove_sig`: strip the witness from input 0. -/
def remove_sig (signed_tx : BitcoinTx) : BitcoinTx :=
  { signed_tx with witness := none }

/-- The success result `resolve_one_close_command` writes for one close
command: the channel's `last_tx`, its txid, and the close `type`
(the JSON key "type", field `typ` here). -/
structure CloseSuccess where
  cmdId : Nat
  tx : BitcoinTx
  txid : Nat
  typ : String
deriving DecidableEq, Repr

/-- `resolve_one_close_command`: emit `{tx, txid, type}` for one command
and complete it (completion is the presence of the record). -/
def resolve_one_close_command (cc : CloseCommand) (ch : Channel)
    (cooperative : Bool) : CloseSuccess :=
  { cmdId := cc.cmdId
    tx := ch.last_tx
    txid := bitcoin_txid ch.last_tx
    typ := if cooperative then "mutual" else "unilateral" }

/-- `resolve_close_command`: walk the global close-command list; skip
records whose channel pointer differs, resolve the rest. -/
def resolve_close_command (ccs : List CloseCommand) (ch : Channel)
    (cooperative : Bool) : List CloseSuccess :=
  match ccs with
  | [] => []
  | cc :: rest =>
      if cc.channel ≠ ch.id then resolve_close_command rest ch cooperative
      else resolve_one_close_command cc ch cooperative
           :: resolve_close_command rest ch cooperative

/-- Everything `drop_to_chain` does: the channel as left in memory, how
many signer requests were issued, the transactions broadcast, the txids
recorded to the wallet (`wallet_transaction_add`), the annotation
writes, the broken-severity log lines, and the close-command
resolutions that were emitted. -/
structure DropResult where
  channel : Channel
  signerRequests : Nat
  broadcasts : List BitcoinTx
  walletTxAdds : List Nat
  walletTxAnnots : List (Nat × Nat × Nat)
  logsBroken : List String
  resolutions : List CloseSuccess
deriving DecidableEq, Repr

/-- `drop_to_chain`: if the counterparty proved a future commitment and
this is not a cooperative close, only log; otherwise sign, record,
broadcast, and strip the witness again.  Either way resolve the close
commands registered against this channel.  `none` embeds the aborted
assertion inside `sign_last_tx`. -/
def drop_to_chain (hsmSig : Nat) (ccs : List CloseCommand) (ch : Channel)
    (cooperative : Bool) : Option DropResult :=
  if ch.future_per_commitment_point ∧ ¬cooperative then
    some { channel := ch
           signerRequests := 0
           broadcasts := []
           walletTxAdds := []
           walletTxAnnots := []
           logsBroken := ["Cannot broadcast our commitment tx: they have a future one"]
           resolutions := resolve_close_command ccs ch cooperative }
  else
    match sign_last_tx hsmSig ch with
    | none => none
    | some chSigned =>
        let txid := bitcoin_txid chSigned.last_tx
        let chStripped :=
          { chSigned with last_tx := remove_sig chSigned.last_tx }
        some { channel := chStripped
               signerRequests := 1
               broadcasts := [chSigned.last_tx]
               walletTxAdds := [txid]
               walletTxAnnots := [(txid, ch.last_tx_type, ch.dbid)]
               logsBroken := []
               resolutions := resolve_close_command ccs chStripped cooperative }

/-- Modelled from the spec: `channel_fail_permanent` lives in the
channel state-machine module, which is not under `src/`.  Per sections
4.4 and 7, a permanent failure transitions the channel to
AWAITING_UNILATERAL and always flows through `drop_to_chain` with
`cooperative = false`, so that close-command resolution is uniform. -/
structure FailPermResult where
  reason : String
  drop : Option DropResult
deriving DecidableEq, Repr

/-- Modelled from the spec: permanent channel failure (see
`FailPermResult`). -/
def channel_fail_permanent (hsmSig : Nat) (ccs : List CloseCommand)
    (ch : Channel) (reason : String) : FailPermResult :=
  { reason := reason
    drop := drop_to_chain hsmSig ccs
              { ch with state := .AWAITING_UNILATERAL } false }

/-- Everything `close_command_timeout` does: the channel as left
afterwards, the direct command failures it issued, the permanent-fail
reason if it invoked one, and the resulting drop-to-chain effects. -/
structure TimeoutResult where
  channel : Channel
  cmdFailures : List (Nat × String)
  permFailReason : Option String
  drop : Option DropResult
deriving DecidableEq, Repr

/-- `close_command_timeout`: on the registered command's timer firing,
either force a permanent channel failure (which drops to chain and
thereby resolves the command), or fail just the command and leave the
channel alone. -/
def close_command_timeout (hsmSig : Nat) (ccs : List CloseCommand)
    (ch : Channel) (cc : CloseCommand) : TimeoutResult :=
  if cc.force then
    let fp := channel_fail_permanent hsmSig ccs ch
                "Forcibly closed by 'close' command timeout"
    { channel := match fp.drop with
                 | some r => r.channel
                 | none => { ch with state := .AWAITING_UNILATERAL }
      cmdFailures := []
      permFailReason := some fp.reason
      drop := fp.drop }
  else
    { channel := ch
      cmdFailures := [(cc.cmdId,
        "Channel close negotiation not finished before timeout")]
      permFailReason := none
      drop := none }

/-- Everything `channel_errmsg` does: the channel after any error
latching, the transient-failure reason (subdaemon crash path), whether
a disconnect notification went out, and the permanent failure invoked
on the protocol-error path. -/
structure ErrmsgResult where
  channel : Channel
  transientReason : Option String
  notifiedDisconnect : Bool
  permFail : Option FailPermResult
deriving DecidableEq, Repr

/-- The channel as left in memory after a (modelled) permanent failure:
the AWAITING_UNILATERAL record as further modified by `drop_to_chain`
(only the witness of `last_tx` can differ; on the aborted-assertion
path the in-memory record before the abort). -/
def perm_failed_channel (hsmSig : Nat) (ccs : List CloseCommand)
    (chL : Channel) : Channel :=
  match drop_to_chain hsmSig ccs
          { chL with state := .AWAITING_UNILATERAL } false with
  | some r => r.channel
  | none => { chL with state := .AWAITING_UNILATERAL }

/-- `channel_errmsg`: with no per-peer-state the subdaemon crashed or
disconnected, a transient failure.  Otherwise latch `err_for_them` as
the error to send on reconnect - but only if no error is stored yet -
notify the disconnect, and fail the channel permanently. -/
def channel_errmsg (hsmSig : Nat) (ccs : List CloseCommand) (ch : Channel)
    (ppsPresent : Bool) (ownerName desc : String)
    (err_for_them : Option (List Nat)) : ErrmsgResult :=
  if ¬ppsPresent then
    { channel := ch
      transientReason := some (ownerName ++ ": " ++ desc)
      notifiedDisconnect := false
      permFail := none }
  else
    let chLatched :=
      match err_for_them, ch.error with
      | some e, none => { ch with error := some e }
      | _, _ => ch
    let fp := channel_fail_permanent hsmSig ccs chLatched
                (ownerName ++ ": " ++
                 (match err_for_them with
                  | some _ => "sent"
                  | none => "received") ++ " ERROR " ++ desc)
    { channel := perm_failed_channel hsmSig ccs chLatched
      transientReason := none
      notifiedDisconnect := true
      permFail := some fp }

/-- The plugin hook's parsed verdict on `peer_connected`.  A reply that
parses to neither verdict is fatal in the source and is excluded at
this parsing boundary. -/
inductive HookVerdict where
  | hcontinue
  | hdisconnect (errMsg : Option String)
deriving DecidableEq, Repr

/-- An error message handed to the opening daemon for transmission:
either formatted by `towire_errorfmt` from a channel-id and a text, or
the raw latched octet string from `channel->error`. -/
inductive SentError where
  | fmt (cid : Option (Nat × Nat)) (text : String)
  | raw (bytes : List Nat)
deriving DecidableEq, Repr

/-- What `peer_connected_hook_cb` ends up doing with the connection:
drop it (hook said disconnect without a message), hand the peer to the
opening daemon (optionally with an error to transmit first), start the
channel worker or the closing worker with reconnect semantics, or hit
the impossible-state assertion. -/
inductive ConnectOutcome where
  | dropConnection
  | startOpeningd (err : Option SentError)
  | startChanneld (reconnect : Bool)
  | startClosingd (reconnect : Bool)
  | abortInvariant
deriving DecidableEq, Repr

/-- The post-hook dispatch of `peer_connected_hook_cb` over the
channel's latched error and state (the part after the hook verdict is
interpreted; non-DEVELOPER build). -/
def peer_connected_dispatch (channel : Option Channel) : ConnectOutcome :=
  match channel with
  | none => .startOpeningd none
  | some ch =>
      match ch.error with
      | some e => .startOpeningd (some (.raw e))
      | none =>
          match ch.state with
          | .ONCHAIN | .FUNDING_SPEND_SEEN | .CLOSINGD_COMPLETE =>
              .abortInvariant
          | .AWAITING_UNILATERAL =>
              .startOpeningd (some (.fmt
                (some (derive_channel_id ch.funding_txid ch.funding_outnum))
                "Awaiting unilateral close"))
          | .CHANNELD_AWAITING_LOCKIN | .CHANNELD_NORMAL
          | .CHANNELD_SHUTTING_DOWN =>
              .startChanneld true
          | .CLOSINGD_SIGEXCHANGE => .startClosingd true

/-- `peer_connected_hook_cb`: interpret the hook verdict (`none` means
no plugin registered the hook, i.e. no buffer), then dispatch on the
channel. -/
def peer_connected_hook_cb (verdict : Option HookVerdict)
    (channel : Option Channel) : ConnectOutcome :=
  match verdict with
  | some (.hdisconnect (some m)) => .startOpeningd (some (.fmt none m))
  | some (.hdisconnect none) => .dropConnection
  | some .hcontinue => peer_connected_dispatch channel
  | none => peer_connected_dispatch channel

/-- What the `close` RPC replies with: a JSON-RPC error, a pending
command (waiting for the close to drop to chain), or the immediate null
success of the uncommitted-channel case (not modelled further here). -/
inductive RpcOutcome where
  | failed (msg : String)
  | pending
deriving DecidableEq, Repr

/-- What `json_close` does once it has resolved an `id` to a channel:
the RPC outcome, the channel as left afterwards, the messages sent to
the channel's owning worker, and the close command registered together
with its timer's seconds. -/
structure CloseRpcResult where
  outcome : RpcOutcome
  channel : Channel
  ownerMsgs : List String
  registered : Option CloseCommand
  timerSeconds : Option Nat
deriving DecidableEq, Repr

/-- `json_close`, from the point where the channel is in hand: refuse
states outside {NORMAL, AWAITING_LOCKIN, SHUTTING_DOWN,
CLOSINGD_SIGEXCHANGE}; from NORMAL or AWAITING_LOCKIN move to
SHUTTING_DOWN and, if a worker owns the channel, send it
`channel_send_shutdown`; register the close command and stay pending. -/
def json_close (cmdId : Nat) (timeout : Nat) (force : Bool)
    (ch : Channel) : CloseRpcResult :=
  if ch.state ≠ .CHANNELD_NORMAL ∧
     ch.state ≠ .CHANNELD_AWAITING_LOCKIN ∧
     ch.state ≠ .CHANNELD_SHUTTING_DOWN ∧
     ch.state ≠ .CLOSINGD_SIGEXCHANGE then
    { outcome := .failed ("Channel is in state " ++
                          channel_state_name ch.state)
      channel := ch
      ownerMsgs := []
      registered := none
      timerSeconds := none }
  else
    let step :=
      if ch.state = .CHANNELD_NORMAL ∨
         ch.state = .CHANNELD_AWAITING_LOCKIN then
        ({ ch with state := .CHANNELD_SHUTTING_DOWN },
         match ch.owner with
         | some _ => ["channel_send_shutdown"]
         | none => [])
      else (ch, [])
    { outcome := .pending
      channel := step.1
      ownerMsgs := step.2
      registered := some { cmdId := cmdId, channel := ch.id, force := force }
      timerSeconds := some timeout }

/-- The chain watcher's verdict returned by a watch callback. -/
inductive WatchResult where
  | KEEP_WATCHING
  | DELETE_WATCH
deriving DecidableEq, Repr

/-- Depth at which the watch is dropped (gossip announcement depth);
a protocol constant from the common headers, not under `src/`. -/
def ANNOUNCE_MIN_DEPTH : Nat := 6

/-- Modelled from the spec: `mk_short_channel_id` (common library, not
under `src/`) packs the `(block_height, tx_index, output_index)` triple
of the glossary, failing when a component exceeds its field width
(24/24/16 bits). -/
def mk_short_channel_id (blkheight txindex outnum : Nat) :
    Option (Nat × Nat × Nat) :=
  if blkheight < 2 ^ 24 ∧ txindex < 2 ^ 24 ∧ outnum < 2 ^ 16 then
    some (blkheight, txindex, outnum)
  else none

/-- Everything `funding_depth_cb` does: the channel as left afterwards,
the watch verdict, how many `wallet_channel_save` calls were made, how
many funding-tx annotation writes, and the transient/permanent failure
reasons it invoked. -/
structure DepthCbResult where
  channel : Channel
  watch : WatchResult
  channelSaves : Nat
  txAnnots : Nat
  transientReasons : List String
  permanentReasons : List String
deriving DecidableEq, Repr

/-- Tail of `funding_depth_cb` after the short-channel-id phase: tell
the worker the new depth (its acceptance is the external input
`tellOk`); keep watching until the worker accepted, the minimum depth
is reached, and the announce depth is reached. -/
def funding_depth_tail (ch : Channel) (depth : Nat) (tellOk : Bool)
    (saves annots : Nat) : DepthCbResult :=
  { channel := ch
    watch :=
      if ¬tellOk then .KEEP_WATCHING
      else if depth < ch.minimum_depth then .KEEP_WATCHING
      else if depth < ANNOUNCE_MIN_DEPTH then .KEEP_WATCHING
      else .DELETE_WATCH
    channelSaves := saves
    txAnnots := annots
    transientReasons := []
    permanentReasons := [] }

/-- `funding_depth_cb`: on a depth report for the funding tx located at
`(blkheight, txindex)`, form the short-channel-id when the minimum
depth is first reached or whenever a non-zero depth arrives for a
channel that already has one (reorg path).  A fresh id is stored and
saved; a changed id additionally restarts the worker via a transient
failure; an unchanged id falls through without saving. -/
def funding_depth_cb (ch : Channel) (depth : Nat)
    (blkheight txindex : Nat) (tellOk : Bool) : DepthCbResult :=
  let min_depth_reached := ch.minimum_depth ≤ depth
  if (min_depth_reached ∧ ch.scid = none) ∨ (depth ≠ 0 ∧ ch.scid ≠ none)
  then
    match mk_short_channel_id blkheight txindex ch.funding_outnum with
    | none =>
        { channel := { ch with state := .AWAITING_UNILATERAL }
          watch := .DELETE_WATCH
          channelSaves := 0
          txAnnots := 1
          transientReasons := []
          permanentReasons := ["Invalid funding scid"] }
    | some scid =>
        match ch.scid with
        | none =>
            funding_depth_tail { ch with scid := some scid } depth tellOk 1 1
        | some old =>
            if old ≠ scid then
              { channel := { ch with scid := some scid, owner := none }
                watch := .KEEP_WATCHING
                channelSaves := 1
                txAnnots := 1
                transientReasons := ["short_channel_id changed"]
                permanentReasons := [] }
            else
              funding_depth_tail ch depth tellOk 0 1
  else
    funding_depth_tail ch depth tellOk 0 0

/-- The peer registry entry fields `maybe_delete_peer` and
`json_setchannelfee` read: pointer identity, the database row id (0 if
never persisted), the channel list, and whether an uncommitted channel
is attached. -/
structure Peer where
  id : Nat
  dbid : Nat
  channels : List Channel
  uncommitted_channel : Bool
deriving DecidableEq, Repr

/-- What `maybe_delete_peer` / `delete_peer` did: whether the peer was
removed from the registry and freed, whether its wallet row was
dropped, and the peer record as left when it survives. -/
structure PeerDeleteResult where
  removed : Bool
  dbRowDropped : Bool
  peer : Peer
deriving DecidableEq, Repr

/-- `delete_peer`: called only with no channels and no uncommitted
channel; drops the wallet row when the peer ever had one and frees the
peer. -/
def delete_peer (p : Peer) : PeerDeleteResult :=
  { removed := true
    dbRowDropped := p.dbid ≠ 0
    peer := p }

/-- `maybe_delete_peer`: keep a peer that still has channels; a peer
kept alive only by an uncommitted channel loses its wallet row (that
alone is not enough to keep it in the db) but stays; otherwise delete
it. -/
def maybe_delete_peer (p : Peer) : PeerDeleteResult :=
  if ¬p.channels.isEmpty then
    { removed := false, dbRowDropped := false, peer := p }
  else if p.uncommitted_channel then
    if p.dbid ≠ 0 then
      { removed := false, dbRowDropped := true, peer := { p with dbid := 0 } }
    else
      { removed := false, dbRowDropped := false, peer := p }
  else
    delete_peer p

/-- Modelled from the spec: `channel_active` (channel record module,
not under `src/`).  Sections 4.4 and 4.8 treat {ONCHAIN,
FUNDING_SPEND_SEEN, CLOSINGD_COMPLETE} as the terminal states, and the
hook callback's comment counts AWAITING_UNILATERAL as still active. -/
def channel_active (ch : Channel) : Bool :=
  ch.state ≠ .FUNDING_SPEND_SEEN ∧
  ch.state ≠ .CLOSINGD_COMPLETE ∧
  ch.state ≠ .ONCHAIN

/-- Modelled from the spec: `peer_active_channel` (channel record
module, not under `src/`) selects the peer's at-most-one active
channel - the first channel of the list that is active. -/
def peer_active_channel (p : Peer) : Option Channel :=
  p.channels.find? channel_active

/-- The JSON entry `set_channel_fees` appends to the response's
`channels` array.  Each emitted entry also stands for one
`wallet_channel_save` persistence call. -/
structure SetFeeEntry where
  peer_id : Nat
  channel_id : Nat × Nat
  scid : Option (Nat × Nat × Nat)
deriving DecidableEq, Repr

/-- `set_channel_fees`: set the new feerates in memory, (tell the
worker, persist the record,) and write the response entry. -/
def set_channel_fees (peerId : Nat) (base ppm : Nat) (ch : Channel) :
    Channel × SetFeeEntry :=
  ({ ch with feerate_base := base, feerate_ppm := ppm },
   { peer_id := peerId
     channel_id := derive_channel_id ch.funding_txid ch.funding_outnum
     scid := ch.scid })

/-- Outcome of the per-peer inner loop of `json_setchannelfee` for
`id="all"`.  `nullDeref` is the loop increment dereferencing the NULL
the iterator variable was rebound to; `outOfFuel` marks a run that did
not terminate within the given fuel. -/
inductive SetFeeLoopResult where
  | ok (p : Peer) (entries : List SetFeeEntry)
  | nullDeref
  | outOfFuel
deriving DecidableEq, Repr

/-- The `list_for_each (&peer->channels, channel, list)` loop of
`json_setchannelfee` with the loop body of the source: the body
REBINDS the iterator variable `channel` to `peer_active_channel(peer)`,
so the loop's increment continues from the first active channel's list
node, not from the node the iterator was visiting.  `idx` is the index
of the node the loop condition checks; after any body run the iterator
stands at (index of first active channel) + 1.  A body run with no
active channel leaves the iterator NULL and the increment crashes. -/
def setfee_inner_loop (base ppm : Nat) :
    Nat → Peer → Nat → SetFeeLoopResult
  | 0, _, _ => .outOfFuel
  | fuel + 1, p, idx =>
      if idx < p.channels.length then
        match p.channels.findIdx? channel_active, peer_active_channel p with
        | some k, some ch =>
            if ch.state = .CHANNELD_NORMAL ∨
               ch.state = .CHANNELD_AWAITING_LOCKIN then
              let upd := set_channel_fees p.id base ppm ch
              match setfee_inner_loop base ppm fuel
                      { p with channels := p.channels.set k upd.1 }
                      (k + 1) with
              | .ok p2 es => .ok p2 (upd.2 :: es)
              | .nullDeref => .nullDeref
              | .outOfFuel => .outOfFuel
            else setfee_inner_loop base ppm fuel p (k + 1)
        | _, _ => .nullDeref
      else .ok p []

/-- Outcome of `json_setchannelfee` with `id="all"` over the whole
peer registry. -/
inductive SetFeeAllResult where
  | ok (peers : List Peer) (entries : List SetFeeEntry)
  | nullDeref
  | outOfFuel
deriving DecidableEq, Repr

/-- `json_setchannelfee` for `id="all"`: the outer loop over peers,
each running the (iterator-rebinding) inner loop over that peer's
channel list starting at node 0.  A crash or non-termination anywhere
means the RPC never produces its response. -/
def json_setchannelfee_all (base ppm fuel : Nat) :
    List Peer → SetFeeAllResult
  | [] => .ok [] []
  | p :: rest =>
      match setfee_inner_loop base ppm fuel p 0 with
      | .ok pDone es =>
          match json_setchannelfee_all base ppm fuel rest with
          | .ok ps es2 => .ok (pDone :: ps) (es ++ es2)
          | .nullDeref => .nullDeref
          | .outOfFuel => .outOfFuel
      | .nullDeref => .nullDeref
      | .outOfFuel => .outOfFuel

/-- A concrete channel record used by the evaluation witnesses. -/
def chBase : Channel :=
  { id := 5
    state := .CHANNELD_NORMAL
    funding_txid := 77
    funding_outnum := 1
    funding_sats := 10000
    minimum_depth := 3
    dbid := 4
    scid := none
    last_tx := { body := 42, witness := none }
    last_tx_type := 2
    last_sig := 8
    future_per_commitment_point := false
    error := none
    owner := none
    feerate_base := 1
    feerate_ppm := 10 }

/-- The close-coordinator walk is the filter of the global list by
channel pointer, resolved in list order. -/
lemma resolve_close_command_eq_filter_map (ccs : List CloseCommand)
    (ch : Channel) (cooperative : Bool) :
    resolve_close_command ccs ch cooperative =
      (ccs.filter (fun cc => cc.channel == ch.id)).map
        (fun cc => resolve_one_close_command cc ch cooperative) := by
  induction ccs with
  | nil => rfl
  | cons cc rest ih =>
      by_cases h : cc.channel = ch.id
      · simp [resolve_close_command, h, ih]
      · simp [resolve_close_command, h, ih]

/-- Every registered close command aimed at the channel is resolved. -/
lemma resolve_close_command_mem (ccs : List CloseCommand) (ch : Channel)
    (cooperative : Bool) (cc : CloseCommand) (hmem : cc ∈ ccs)
    (hch : cc.channel = ch.id) :
    resolve_one_close_command cc ch cooperative ∈
      resolve_close_command ccs ch cooperative := by
  rw [resolve_close_command_eq_filter_map]
  exact List.mem_map_of_mem _ (List.mem_filter.2 ⟨hmem, by simp [hch]⟩)

/-- C1: for every channel whose future per-commitment point is set,
`drop_to_chain` with `cooperative = false` requests no signature from
the signer, broadcasts nothing, records nothing to the wallet, leaves
the channel untouched and only logs - yet every close command
registered against that channel is still resolved with type
"unilateral". -/
theorem C1_drop_future_point_no_sign_no_broadcast
    (hsmSig : Nat) (ccs : List CloseCommand) (ch : Channel)
    (hfut : ch.future_per_commitment_point = true) :
    ∃ r, drop_to_chain hsmSig ccs ch false = some r ∧
      r.signerRequests = 0 ∧
      r.broadcasts = [] ∧
      r.walletTxAdds = [] ∧
      r.walletTxAnnots = [] ∧
      r.logsBroken ≠ [] ∧
      r.channel = ch ∧
      ∀ cc ∈ ccs, cc.channel = ch.id →
        resolve_one_close_command cc ch false ∈ r.resolutions ∧
        (resolve_one_close_command cc ch false).typ = "unilateral" := by
  have h : drop_to_chain hsmSig ccs ch false =
      some { channel := ch
             signerRequests := 0
             broadcasts := []
             walletTxAdds := []
             walletTxAnnots := []
             logsBroken := ["Cannot broadcast our commitment tx: they have a future one"]
             resolutions := resolve_close_command ccs ch false } := by
    simp [drop_to_chain, hfut]
  refine ⟨_, h, rfl, rfl, rfl, rfl, by simp, rfl, ?_⟩
  intro cc hmem hch
  exact ⟨resolve_close_command_mem ccs ch false cc hmem hch,
         by simp [resolve_one_close_command]⟩

/-- C1 witness: concrete evaluation on a channel with the future point
set and one matching close command. -/
theorem C1_witness :
    ∃ r, drop_to_chain 9 [⟨1, 5, false⟩]
           { chBase with future_per_commitment_point := true } false
           = some r ∧
      r.signerRequests = 0 ∧ r.broadcasts = [] ∧ r.walletTxAdds = [] := by
  obtain ⟨r, h0, h1, h2, h3, -⟩ :=
    C1_drop_future_point_no_sign_no_broadcast 9 [⟨1, 5, false⟩]
      { chBase with future_per_commitment_point := true } rfl
  exact ⟨r, h0, h1, h2, h3⟩

/-- C2: starting from a channel whose stored commitment is in its
canonical unsigned shape (the shape `sign_last_tx` asserts and section
5's resource policy guarantees), `drop_to_chain` for either value of
`cooperative` returns with no witness attached to `last_tx`: a witness
exists at most transiently around the broadcast and is stripped before
return. -/
theorem C2_drop_to_chain_strips_witness
    (hsmSig : Nat) (ccs : List CloseCommand) (ch : Channel)
    (cooperative : Bool) (hw : ch.last_tx.witness = none) :
    ∀ r, drop_to_chain hsmSig ccs ch cooperative = some r →
      r.channel.last_tx.witness = none := by
  intro r hr
  by_cases hfut : ch.future_per_commitment_point ∧ ¬cooperative
  · simp only [drop_to_chain, if_pos hfut] at hr
    cases hr
    exact hw
  · simp only [drop_to_chain, if_neg hfut, sign_last_tx, hw] at hr
    cases hr
    rfl

/-- C2 witness: concrete evaluation, one per branch of the function. -/
theorem C2_witness :
    chBase.last_tx.witness = none ∧
    (∀ r, drop_to_chain 9 [] chBase true = some r →
      r.channel.last_tx.witness = none) ∧
    (∀ r, drop_to_chain 9 []
            { chBase with future_per_commitment_point := true } false
            = some r → r.channel.last_tx.witness = none) :=
  ⟨rfl,
   C2_drop_to_chain_strips_witness 9 [] chBase true rfl,
   C2_drop_to_chain_strips_witness 9 []
     { chBase with future_per_commitment_point := true } false rfl⟩

/-- C3: a channel in AWAITING_UNILATERAL with no latched error, on
`peer_connected` with a "continue" hook verdict, gets a protocol error
whose channel-id is derived from the funding outpoint and whose text is
"Awaiting unilateral close"; neither the channel worker nor the closing
worker is started. -/
theorem C3_reconnect_awaiting_unilateral (ch : Channel)
    (hstate : ch.state = .AWAITING_UNILATERAL) (herr : ch.error = none) :
    peer_connected_hook_cb (some .hcontinue) (some ch) =
      .startOpeningd (some (.fmt
        (some (derive_channel_id ch.funding_txid ch.funding_outnum))
        "Awaiting unilateral close")) ∧
    (∀ b, peer_connected_hook_cb (some .hcontinue) (some ch) ≠
            .startChanneld b) ∧
    (∀ b, peer_connected_hook_cb (some .hcontinue) (some ch) ≠
            .startClosingd b) := by
  refine ⟨?_, ?_, ?_⟩ <;>
    simp [peer_connected_hook_cb, peer_connected_dispatch, herr, hstate]

/-- C3 witness: concrete evaluation. -/
theorem C3_witness :
    peer_connected_hook_cb (some .hcontinue)
        (some { chBase with state := .AWAITING_UNILATERAL }) =
      .startOpeningd (some (.fmt (some (77, 1))
        "Awaiting unilateral close")) :=
  (C3_reconnect_awaiting_unilateral
    { chBase with state := .AWAITING_UNILATERAL } rfl rfl).1

/-- C4 counterexample: a channel in CHANNELD_NORMAL with no owning
worker (a disconnected peer - exactly the shape the reconnect path
asserts with `assert(!channel->owner)`).  `json_close` transitions it
to CHANNELD_SHUTTING_DOWN but sends no `channel_send_shutdown` to any
worker, contradicting the claim that the message is always sent. -/
theorem C4_counterexample :
    chBase.state = .CHANNELD_NORMAL ∧
    chBase.owner = none ∧
    (json_close 1 30 false chBase).channel.state =
      .CHANNELD_SHUTTING_DOWN ∧
    (json_close 1 30 false chBase).ownerMsgs = [] ∧
    "channel_send_shutdown" ∉ (json_close 1 30 false chBase).ownerMsgs :=
  by decide

/-- C4 amended: ineligible states fail with "Channel is in state
<NAME>" and change nothing; NORMAL or AWAITING_LOCKIN transitions to
SHUTTING_DOWN and `channel_send_shutdown` goes to the channel worker
exactly when one currently owns the channel; in every eligible state a
close command is registered and the RPC stays pending. -/
theorem C4_close_rpc_amended (cmdId timeout : Nat) (force : Bool)
    (ch : Channel) :
    (ch.state ≠ .CHANNELD_NORMAL ∧
     ch.state ≠ .CHANNELD_AWAITING_LOCKIN ∧
     ch.state ≠ .CHANNELD_SHUTTING_DOWN ∧
     ch.state ≠ .CLOSINGD_SIGEXCHANGE →
       json_close cmdId timeout force ch =
         { outcome := .failed ("Channel is in state " ++
                               channel_state_name ch.state)
           channel := ch
           ownerMsgs := []
           registered := none
           timerSeconds := none }) ∧
    ((ch.state = .CHANNELD_NORMAL ∨
      ch.state = .CHANNELD_AWAITING_LOCKIN) →
       (json_close cmdId timeout force ch).outcome = .pending ∧
       (json_close cmdId timeout force ch).channel.state =
         .CHANNELD_SHUTTING_DOWN ∧
       (ch.owner.isSome →
         (json_close cmdId timeout force ch).ownerMsgs =
           ["channel_send_shutdown"]) ∧
       (ch.owner = none →
         (json_close cmdId timeout force ch).ownerMsgs = []) ∧
       (json_close cmdId timeout force ch).registered =
         some { cmdId := cmdId, channel := ch.id, force := force } ∧
       (json_close cmdId timeout force ch).timerSeconds = some timeout) ∧
    ((ch.state = .CHANNELD_SHUTTING_DOWN ∨
      ch.state = .CLOSINGD_SIGEXCHANGE) →
       (json_close cmdId timeout force ch).outcome = .pending ∧
       (json_close cmdId timeout force ch).channel = ch ∧
       (json_close cmdId timeout force ch).ownerMsgs = [] ∧
       (json_close cmdId timeout force ch).registered =
         some { cmdId := cmdId, channel := ch.id, force := force } ∧
       (json_close cmdId timeout force ch).timerSeconds = some timeout)
    := by
  obtain ⟨i, st, a1, a2, a3, a4, a5, sc, ltx, ltt, ls, fut, err, own, fb,
          fp⟩ := ch
  cases st <;> cases own <;> simp [json_close, channel_state_name]

/-- C4 witness: a NORMAL channel with an owning worker takes the
shutdown transition, gets the worker message, and registers the
command. -/
theorem C4_witness :
    (json_close 1 30 false
       { chBase with owner := some "lightning_channeld" }).channel.state =
      .CHANNELD_SHUTTING_DOWN ∧
    (json_close 1 30 false
       { chBase with owner := some "lightning_channeld" }).ownerMsgs =
      ["channel_send_shutdown"] ∧
    (json_close 1 30 false
       { chBase with owner := some "lightning_channeld" }).registered =
      some { cmdId := 1, channel := 5, force := false } := by
  have h := (C4_close_rpc_amended 1 30 false
    { chBase with owner := some "lightning_channeld" }).2.1 (Or.inl rfl)
  exact ⟨h.2.1, h.2.2.1 rfl, h.2.2.2.2.1⟩

/-- A canonical-shape channel always makes it through `drop_to_chain`
(the assertion in `sign_last_tx` cannot fire). -/
lemma drop_to_chain_isSome (hsmSig : Nat) (ccs : List CloseCommand)
    (ch : Channel) (coop : Bool) (hw : ch.last_tx.witness = none) :
    (drop_to_chain hsmSig ccs ch coop).isSome := by
  by_cases hfut : ch.future_per_commitment_point ∧ ¬coop
  · simp only [drop_to_chain, if_pos hfut]
    rfl
  · simp only [drop_to_chain, if_neg hfut, sign_last_tx, hw]
    rfl

/-- Whatever branch `drop_to_chain` takes, the returned channel keeps
its identity and the emitted resolutions are the close-coordinator walk
over that channel. -/
lemma drop_to_chain_char (hsmSig : Nat) (ccs : List CloseCommand)
    (ch : Channel) (coop : Bool) :
    ∀ r, drop_to_chain hsmSig ccs ch coop = some r →
      r.channel.id = ch.id ∧
      r.resolutions = resolve_close_command ccs r.channel coop := by
  intro r hr
  by_cases hfut : ch.future_per_commitment_point ∧ ¬coop
  · simp only [drop_to_chain, if_pos hfut] at hr
    cases hr
    exact ⟨rfl, rfl⟩
  · simp only [drop_to_chain, if_neg hfut] at hr
    cases hws : ch.last_tx.witness with
    | some w => simp [sign_last_tx, hws] at hr
    | none =>
        simp only [sign_last_tx, hws] at hr
        cases hr
        exact ⟨rfl, rfl⟩

/-- C5: when a registered close command's timer fires with `force` set,
the channel is failed permanently with reason "Forcibly closed by
'close' command timeout", no command is failed directly, and the drop
to chain resolves every close command registered against the channel
with type "unilateral"; without `force` only the command itself fails
with "Channel close negotiation not finished before timeout" and the
channel is left exactly as it was. -/
theorem C5_close_command_timeout
    (hsmSig : Nat) (ccs : List CloseCommand) (ch : Channel)
    (cc : CloseCommand) (hw : ch.last_tx.witness = none) :
    (cc.force = true →
      (close_command_timeout hsmSig ccs ch cc).permFailReason =
        some "Forcibly closed by 'close' command timeout" ∧
      (close_command_timeout hsmSig ccs ch cc).cmdFailures = [] ∧
      ∃ r, (close_command_timeout hsmSig ccs ch cc).drop = some r ∧
        ∀ cc2 ∈ ccs, cc2.channel = ch.id →
          ∃ e ∈ r.resolutions, e.cmdId = cc2.cmdId ∧
            e.typ = "unilateral") ∧
    (cc.force = false →
      close_command_timeout hsmSig ccs ch cc =
        { channel := ch
          cmdFailures := [(cc.cmdId,
            "Channel close negotiation not finished before timeout")]
          permFailReason := none
          drop := none }) := by
  constructor
  · intro hf
    have hw2 : ({ ch with state := ChannelState.AWAITING_UNILATERAL }
                  : Channel).last_tx.witness = none := hw
    obtain ⟨r, hr⟩ := Option.isSome_iff_exists.mp
      (drop_to_chain_isSome hsmSig ccs
        { ch with state := .AWAITING_UNILATERAL } false hw2)
    refine ⟨by simp [close_command_timeout, hf, channel_fail_permanent],
            by simp [close_command_timeout, hf, channel_fail_permanent],
            r,
            by simp [close_command_timeout, hf, channel_fail_permanent,
                     hr],
            ?_⟩
    intro cc2 hmem hch
    obtain ⟨hid, hres⟩ := drop_to_chain_char hsmSig ccs
      { ch with state := .AWAITING_UNILATERAL } false r hr
    refine ⟨resolve_one_close_command cc2 r.channel false, ?_, rfl,
            by simp [resolve_one_close_command]⟩
    rw [hres]
    exact resolve_close_command_mem ccs r.channel false cc2 hmem
      (by rw [hch]; exact hid.symm)
  · intro hf
    simp [close_command_timeout, hf]

/-- C5 witness: concrete evaluations for a forced and an unforced
timeout. -/
theorem C5_witness :
    ((close_command_timeout 9 [⟨1, 5, true⟩] chBase
        ⟨1, 5, true⟩).permFailReason =
      some "Forcibly closed by 'close' command timeout") ∧
    (close_command_timeout 9 [⟨1, 5, false⟩] chBase
        ⟨1, 5, false⟩).cmdFailures =
      [(1, "Channel close negotiation not finished before timeout")] := by
  have h1 := (C5_close_command_timeout 9 [⟨1, 5, true⟩] chBase
    ⟨1, 5, true⟩ rfl).1 rfl
  have h2 := (C5_close_command_timeout 9 [⟨1, 5, false⟩] chBase
    ⟨1, 5, false⟩ rfl).2 rfl
  exact ⟨h1.1, by rw [h2]⟩

/-- C6: close-command resolution resolves exactly the registered
commands whose channel pointer equals the channel - the walk equals the
filter of the list by channel, in order - and every emitted success
result carries the channel's `last_tx`, its txid, and type "mutual"
when cooperative, "unilateral" otherwise. -/
theorem C6_resolve_close_commands (ccs : List CloseCommand)
    (ch : Channel) (cooperative : Bool) :
    resolve_close_command ccs ch cooperative =
      (ccs.filter (fun cc => cc.channel == ch.id)).map
        (fun cc => resolve_one_close_command cc ch cooperative) ∧
    ∀ e ∈ resolve_close_command ccs ch cooperative,
      e.tx = ch.last_tx ∧
      e.txid = bitcoin_txid ch.last_tx ∧
      e.typ = (if cooperative then "mutual" else "unilateral") := by
  refine ⟨resolve_close_command_eq_filter_map ccs ch cooperative, ?_⟩
  intro e he
  rw [resolve_close_command_eq_filter_map] at he
  obtain ⟨cc, -, rfl⟩ := List.mem_map.1 he
  exact ⟨rfl, rfl, rfl⟩

/-- C6 witness: two registered commands, one for the channel and one
for another channel; only the matching one is resolved, with the
mutual type. -/
theorem C6_witness :
    resolve_close_command [⟨1, 5, false⟩, ⟨2, 6, true⟩] chBase true =
      [{ cmdId := 1, tx := chBase.last_tx,
         txid := bitcoin_txid chBase.last_tx, typ := "mutual" }] := by
  have h := (C6_resolve_close_commands [⟨1, 5, false⟩, ⟨2, 6, true⟩]
    chBase true).1
  simpa [resolve_one_close_command] using h

/-- A peer whose only channel is in ONCHAIN: its channel list is
non-empty, but it has no active channel. -/
def peerOnchain : Peer :=
  { id := 1
    dbid := 1
    channels := [{ chBase with id := 7, state := .ONCHAIN }]
    uncommitted_channel := false }

/-- A peer with two NORMAL channels on its list. -/
def peerTwoNormal : Peer :=
  { id := 2
    dbid := 2
    channels := [{ chBase with id := 8 }, { chBase with id := 9 }]
    uncommitted_channel := false }

/-- C7: the `id="all"` loop of `json_setchannelfee` rebinds its own
list iterator to `peer_active_channel(peer)` inside the body, so on a
peer whose (non-empty) channel list has no active channel the loop
increment dereferences NULL, and on a peer whose first active channel
is not the last list node the loop never terminates.  Either way the
RPC never produces the response the claim describes.  This theorem
evaluates the code at both failing inputs. -/
theorem C7_setchannelfee_all_divergence :
    json_setchannelfee_all 1000 10 5 [peerOnchain] =
      .nullDeref ∧
    json_setchannelfee_all 1000 10 30 [peerTwoNormal] =
      .outOfFuel := by decide

/-- C8: the funding depth callback is idempotent in the
short-channel-id: for a channel that already has one, a non-zero depth
report locating the funding tx at the same (block-height, tx-index)
does not save the channel record and does not restart the worker (and
leaves the channel untouched); only a changed id saves, and then with a
transient failure. -/
theorem C8_scid_idempotent (ch : Channel) (s : Nat × Nat × Nat)
    (depth blkheight txindex : Nat) (tellOk : Bool)
    (hscid : ch.scid = some s) (hdepth : depth ≠ 0) :
    (mk_short_channel_id blkheight txindex ch.funding_outnum = some s →
      (funding_depth_cb ch depth blkheight txindex tellOk).channelSaves
        = 0 ∧
      (funding_depth_cb ch depth blkheight txindex tellOk).transientReasons
        = [] ∧
      (funding_depth_cb ch depth blkheight txindex tellOk).channel = ch) ∧
    (∀ s2, mk_short_channel_id blkheight txindex ch.funding_outnum
             = some s2 → s2 ≠ s →
      (funding_depth_cb ch depth blkheight txindex tellOk).channelSaves
        = 1 ∧
      (funding_depth_cb ch depth blkheight txindex tellOk).transientReasons
        = ["short_channel_id changed"] ∧
      (funding_depth_cb ch depth blkheight txindex tellOk).channel.scid
        = some s2) := by
  constructor
  · intro hmk
    simp [funding_depth_cb, hscid, hdepth, hmk, funding_depth_tail]
  · intro s2 hmk hne
    simp [funding_depth_cb, hscid, hdepth, hmk, funding_depth_tail,
          Ne.symm hne]

/-- C8 witness: a channel with scid (100, 2, 1); the same location is
reported again (no save, no restart), then a different location (one
save, one transient restart). -/
theorem C8_witness :
    ((funding_depth_cb { chBase with scid := some (100, 2, 1) } 4 100 2
        true).channelSaves = 0 ∧
     (funding_depth_cb { chBase with scid := some (100, 2, 1) } 4 100 2
        true).channel = { chBase with scid := some (100, 2, 1) }) ∧
    ((funding_depth_cb { chBase with scid := some (100, 2, 1) } 4 101 3
        true).channelSaves = 1 ∧
     (funding_depth_cb { chBase with scid := some (100, 2, 1) } 4 101 3
        true).transientReasons = ["short_channel_id changed"]) := by
  have h := C8_scid_idempotent { chBase with scid := some (100, 2, 1) }
    (100, 2, 1) 4 100 2 true rfl (by decide)
  have h2 := C8_scid_idempotent { chBase with scid := some (100, 2, 1) }
    (100, 2, 1) 4 101 3 true rfl (by decide)
  have ha := h.1 (by decide)
  have hb := h2.2 (101, 3, 1) (by decide) (by decide)
  exact ⟨⟨ha.1, ha.2.2⟩, hb.1, hb.2.1⟩

/-- C9: `maybe_delete_peer` removes the peer exactly when its channel
set is empty and no uncommitted channel is attached, and on removal the
peer's wallet row is dropped exactly when it has one (dbid nonzero). -/
theorem C9_maybe_delete_peer (p : Peer) :
    ((maybe_delete_peer p).removed = true ↔
      (p.channels = [] ∧ p.uncommitted_channel = false)) ∧
    ((maybe_delete_peer p).removed = true →
      ((maybe_delete_peer p).dbRowDropped = true ↔ p.dbid ≠ 0)) := by
  by_cases h1 : p.channels.isEmpty <;>
    by_cases h2 : p.uncommitted_channel <;>
      by_cases h3 : p.dbid = 0 <;>
        simp_all [maybe_delete_peer, delete_peer, List.isEmpty_iff]

/-- C9 witness: a peer with no channels, no uncommitted channel and a
wallet row is removed and its row dropped. -/
theorem C9_witness :
    (maybe_delete_peer { id := 1, dbid := 3, channels := [],
                         uncommitted_channel := false }).removed = true ∧
    (maybe_delete_peer { id := 1, dbid := 3, channels := [],
                         uncommitted_channel := false }).dbRowDropped
      = true := by
  have h := C9_maybe_delete_peer
    { id := 1, dbid := 3, channels := [], uncommitted_channel := false }
  have hrem := h.1.mpr ⟨rfl, rfl⟩
  exact ⟨hrem, (h.2 hrem).mpr (by decide)⟩

/-- `drop_to_chain` never touches the latched error field. -/
lemma drop_to_chain_preserves_error (hsmSig : Nat)
    (ccs : List CloseCommand) (ch : Channel) (coop : Bool) :
    ∀ r, drop_to_chain hsmSig ccs ch coop = some r →
      r.channel.error = ch.error := by
  intro r hr
  by_cases hfut : ch.future_per_commitment_point ∧ ¬coop
  · simp only [drop_to_chain, if_pos hfut] at hr
    cases hr
    rfl
  · simp only [drop_to_chain, if_neg hfut] at hr
    cases hws : ch.last_tx.witness with
    | some w => simp [sign_last_tx, hws] at hr
    | none =>
        simp only [sign_last_tx, hws] at hr
        cases hr
        rfl

/-- C10: the latched error-to-send-on-reconnect is write-once: if the
channel already stores an error, `channel_errmsg` never overwrites it,
whatever the per-peer-state, description or `err_for_them`; and a fresh
`err_for_them` is latched exactly when no error was stored before. -/
theorem C10_error_write_once (hsmSig : Nat) (ccs : List CloseCommand)
    (ch : Channel) (ppsPresent : Bool) (ownerName desc : String)
    (eft : Option (List Nat)) :
    (∀ e, ch.error = some e →
      (channel_errmsg hsmSig ccs ch ppsPresent ownerName desc
        eft).channel.error = some e) ∧
    (∀ v, ch.error = none → ppsPresent = true → eft = some v →
      (channel_errmsg hsmSig ccs ch ppsPresent ownerName desc
        eft).channel.error = some v) := by
  have hperm : ∀ chL : Channel,
      (perm_failed_channel hsmSig ccs chL).error = chL.error := by
    intro chL
    cases hdrop : drop_to_chain hsmSig ccs
        { chL with state := .AWAITING_UNILATERAL } false with
    | none => simp [perm_failed_channel, hdrop]
    | some r =>
        have := drop_to_chain_preserves_error hsmSig ccs
          { chL with state := .AWAITING_UNILATERAL } false r hdrop
        simp only [perm_failed_channel, hdrop]
        exact this
  constructor
  · intro e herr
    cases ppsPresent with
    | false => simpa [channel_errmsg] using herr
    | true =>
        cases eft <;>
          simp [channel_errmsg, herr, hperm]
  · intro v herr hpps heft
    subst hpps heft
    simp [channel_errmsg, herr, hperm]

/-- C10 witness: a channel with a stored error keeps it across a later
worker error carrying a different `err_for_them`. -/
theorem C10_witness :
    (channel_errmsg 9 [] { chBase with error := some [1, 2] } true
      "lightning_channeld" "bad commitment" (some [3])).channel.error
      = some [1, 2] :=
  (C10_error_write_once 9 [] { chBase with error := some [1, 2] } true
    "lightning_channeld" "bad commitment" (some [3])).1 [1, 2] rfl
